import Mathlib

/-!
Verification of the Drone-Delivery backend (Go) against its natural-language
specification.  The development shallowly embeds the three aggregate state
machines (Order, Drone, Job), the delivery orchestrator's transactional
operations, and the resilience middleware (circuit breaker, idempotency
cache, sliding-window rate limiter).

Modelling conventions:
* Go statuses are typed strings; they are modelled as Lean String constants.
* Timestamps written by time.Now() (CreatedAt/UpdatedAt) carry no behavioural
  weight in any claim and are omitted from the aggregate records.
* float64 coordinates are modelled as Int (no claim performs arithmetic on
  them; they are only stored and copied).
* uuid.New() identifiers are modelled by a fresh-id counter threaded through
  the database state.
* A transaction is modelled as commit-or-rollback: an orchestrated operation
  returns Except DomainError DB; on error the persisted state is the original
  DB (the deferred tx.Rollback in the Go code).
-/

namespace DroneDelivery

/-- Domain error payloads, from internal/errors/errors.go.  The constructors
mirror the DomainError codes; invalidTransition keeps the two strings passed
to NewInvalidTransition(from, to). -/
inductive DomainError where
  | notFound (entity id : String)
  | invalidTransition (src tgt : String)
  | conflict (msg : String)
  | forbidden (msg : String)
  | validation (msg : String)
  | internalErr (msg : String)
  deriving Repr, DecidableEq

/-- Order status constant, from internal/order (model.go section). -/
def StatusPending : String := "PENDING"

/-- Order status constant ASSIGNED. -/
def StatusAssigned : String := "ASSIGNED"

/-- Order status constant PICKED_UP. -/
def StatusPickedUp : String := "PICKED_UP"

/-- Order status constant DELIVERED. -/
def StatusDelivered : String := "DELIVERED"

/-- Order status constant FAILED. -/
def StatusFailed : String := "FAILED"

/-- Order status constant WITHDRAWN. -/
def StatusWithdrawn : String := "WITHDRAWN"

/-- Order status constant AWAITING_HANDOFF. -/
def StatusAwaitingHandoff : String := "AWAITING_HANDOFF"

/-- Drone status constant IDLE, from internal/drone. -/
def DroneIdle : String := "IDLE"

/-- Drone status constant EN_ROUTE_PICKUP. -/
def DroneEnRoutePickup : String := "EN_ROUTE_PICKUP"

/-- Drone status constant EN_ROUTE_DELIVERY. -/
def DroneEnRouteDelivery : String := "EN_ROUTE_DELIVERY"

/-- Drone status constant BROKEN. -/
def DroneBroken : String := "BROKEN"

/-- Job status constant OPEN, from the job package. -/
def JobOpen : String := "OPEN"

/-- Job status constant RESERVED. -/
def JobReserved : String := "RESERVED"

/-- Job status constant COMPLETED. -/
def JobCompleted : String := "COMPLETED"

/-- Job status constant CANCELLED. -/
def JobCancelled : String := "CANCELLED"

/-- The Order aggregate (internal/order, struct Order).  CreatedAt/UpdatedAt
omitted; coordinates as Int; the id is a fresh Nat standing for the UUID. -/
structure Order where
  id : Nat
  submittedBy : String
  originLat : Int
  originLng : Int
  destLat : Int
  destLng : Int
  status : String
  assignedDroneID : Option String
  deriving Repr, DecidableEq

/-- The Drone aggregate (internal/drone, struct Drone).  LastHeartbeat and
the timestamps are omitted; the caller-supplied physical id stays a String. -/
structure Drone where
  id : String
  status : String
  latitude : Int
  longitude : Int
  currentOrderID : Option Nat
  deriving Repr, DecidableEq

/-- The Job aggregate (job package, struct Job). -/
structure Job where
  id : Nat
  orderID : Nat
  status : String
  reservedByDroneID : Option String
  deriving Repr, DecidableEq

/-- Event payload returned by Drone.MarkBroken (internal/drone/model.go). -/
structure DroneBrokenEvent where
  droneID : String
  lat : Int
  lng : Int
  orderID : Option Nat
  deriving Repr, DecidableEq

/-- NewOrder (order model): status PENDING, no assigned drone. -/
def newOrder (id : Nat) (submittedBy : String) (oLat oLng dLat dLng : Int) : Order :=
  { id := id, submittedBy := submittedBy,
    originLat := oLat, originLng := oLng, destLat := dLat, destLng := dLng,
    status := StatusPending, assignedDroneID := none }

/-- NewJob (job model): status OPEN, no reserving drone. -/
def newJob (id : Nat) (orderID : Nat) : Job :=
  { id := id, orderID := orderID, status := JobOpen, reservedByDroneID := none }

/-- drone.New: fresh drone is IDLE with no current order. -/
def newDrone (id : String) : Drone :=
  { id := id, status := DroneIdle, latitude := 0, longitude := 0, currentOrderID := none }

/-- Status.IsTerminal (order model): DELIVERED, FAILED or WITHDRAWN. -/
def orderIsTerminal (s : String) : Bool :=
  s == StatusDelivered || s == StatusFailed || s == StatusWithdrawn

/-- Order.Withdraw: only from PENDING, to WITHDRAWN. -/
def orderWithdraw (o : Order) : Except DomainError Order :=
  if o.status ≠ StatusPending then
    .error (.invalidTransition o.status StatusWithdrawn)
  else
    .ok { o with status := StatusWithdrawn }

/-- Order.Assign: from PENDING or AWAITING_HANDOFF, to ASSIGNED, setting the
assigned drone. -/
def orderAssign (o : Order) (droneID : String) : Except DomainError Order :=
  if o.status ≠ StatusPending ∧ o.status ≠ StatusAwaitingHandoff then
    .error (.invalidTransition o.status StatusAssigned)
  else
    .ok { o with status := StatusAssigned, assignedDroneID := some droneID }

/-- Order.MarkPickedUp: only from ASSIGNED. -/
def orderMarkPickedUp (o : Order) : Except DomainError Order :=
  if o.status ≠ StatusAssigned then
    .error (.invalidTransition o.status StatusPickedUp)
  else
    .ok { o with status := StatusPickedUp }

/-- Order.MarkDelivered: only from PICKED_UP, clears the assigned drone. -/
def orderMarkDelivered (o : Order) : Except DomainError Order :=
  if o.status ≠ StatusPickedUp then
    .error (.invalidTransition o.status StatusDelivered)
  else
    .ok { o with status := StatusDelivered, assignedDroneID := none }

/-- Order.MarkFailed: only from PICKED_UP, clears the assigned drone. -/
def orderMarkFailed (o : Order) : Except DomainError Order :=
  if o.status ≠ StatusPickedUp then
    .error (.invalidTransition o.status StatusFailed)
  else
    .ok { o with status := StatusFailed, assignedDroneID := none }

/-- Order.AwaitHandoff: from ASSIGNED or PICKED_UP, clears the assigned
drone. -/
def orderAwaitHandoff (o : Order) : Except DomainError Order :=
  if o.status ≠ StatusAssigned ∧ o.status ≠ StatusPickedUp then
    .error (.invalidTransition o.status StatusAwaitingHandoff)
  else
    .ok { o with status := StatusAwaitingHandoff, assignedDroneID := none }

/-- Order.UpdateOrigin: fails once terminal; the error's target field is the
operation name update_origin exactly as passed in the Go source. -/
def orderUpdateOrigin (o : Order) (lat lng : Int) : Except DomainError Order :=
  if orderIsTerminal o.status then
    .error (.invalidTransition o.status "update_origin")
  else
    .ok { o with originLat := lat, originLng := lng }

/-- Order.UpdateDestination: fails once terminal; the error's target field is
the operation name update_destination exactly as passed in the Go source. -/
def orderUpdateDestination (o : Order) (lat lng : Int) : Except DomainError Order :=
  if orderIsTerminal o.status then
    .error (.invalidTransition o.status "update_destination")
  else
    .ok { o with destLat := lat, destLng := lng }

/-- Drone.Reserve: only from IDLE, to EN_ROUTE_PICKUP, binding the order. -/
def droneReserve (d : Drone) (orderID : Nat) : Except DomainError Drone :=
  if d.status ≠ DroneIdle then
    .error (.invalidTransition d.status DroneEnRoutePickup)
  else
    .ok { d with status := DroneEnRoutePickup, currentOrderID := some orderID }

/-- Drone.StartDelivery: only from EN_ROUTE_PICKUP. -/
def droneStartDelivery (d : Drone) : Except DomainError Drone :=
  if d.status ≠ DroneEnRoutePickup then
    .error (.invalidTransition d.status DroneEnRouteDelivery)
  else
    .ok { d with status := DroneEnRouteDelivery }

/-- Drone.GoIdle: unconditional, clears the current order. -/
def droneGoIdle (d : Drone) : Drone :=
  { d with status := DroneIdle, currentOrderID := none }

/-- Drone.MarkBroken: Conflict when already BROKEN; otherwise returns the
broken event (last location and carried order) and moves to BROKEN clearing
the current order. -/
def droneMarkBroken (d : Drone) : Except DomainError (DroneBrokenEvent × Drone) :=
  if d.status = DroneBroken then
    .error (.conflict "drone is already broken")
  else
    .ok ({ droneID := d.id, lat := d.latitude, lng := d.longitude, orderID := d.currentOrderID },
         { d with status := DroneBroken, currentOrderID := none })

/-- Drone.MarkFixed: only from BROKEN, back to IDLE. -/
def droneMarkFixed (d : Drone) : Except DomainError Drone :=
  if d.status ≠ DroneBroken then
    .error (.invalidTransition d.status DroneIdle)
  else
    .ok { d with status := DroneIdle, currentOrderID := none }

/-- Drone.UpdateLocation: unconditional coordinate write. -/
def droneUpdateLocation (d : Drone) (lat lng : Int) : Drone :=
  { d with latitude := lat, longitude := lng }

/-- Job.Reserve: Conflict (job already reserved) unless OPEN; binds the
drone. -/
def jobReserve (j : Job) (droneID : String) : Except DomainError Job :=
  if j.status ≠ JobOpen then
    .error (.conflict "job is already reserved by another drone")
  else
    .ok { j with status := JobReserved, reservedByDroneID := some droneID }

/-- Job.Complete: only from RESERVED. -/
def jobComplete (j : Job) : Except DomainError Job :=
  if j.status ≠ JobReserved then
    .error (.invalidTransition j.status JobCompleted)
  else
    .ok { j with status := JobCompleted }

/-- Job.Cancel: fails from COMPLETED or CANCELLED; clears the drone binding. -/
def jobCancel (j : Job) : Except DomainError Job :=
  if j.status = JobCompleted ∨ j.status = JobCancelled then
    .error (.invalidTransition j.status JobCancelled)
  else
    .ok { j with status := JobCancelled, reservedByDroneID := none }

/-!
Persistent store.  The relational database is three tables plus a fresh-id
counter standing in for uuid generation.  Row access mirrors the repository
SQL: lookup by primary key, UPDATE ... WHERE id = :id, INSERT appends.
-/

/-- The database state: one list per table, plus the fresh-id counter. -/
structure DB where
  counter : Nat
  orders : List Order
  jobs : List Job
  drones : List Drone
  deriving Repr, DecidableEq

/-- SELECT ... FROM orders WHERE id = $1 (orderRepository.GetByID). -/
def findOrder : List Order → Nat → Option Order
  | [], _ => none
  | o :: rest, i => if o.id = i then some o else findOrder rest i

/-- SELECT ... FROM jobs WHERE id = $1 (jobRepository.GetByID). -/
def findJob : List Job → Nat → Option Job
  | [], _ => none
  | j :: rest, i => if j.id = i then some j else findJob rest i

/-- SELECT ... FROM drones WHERE id = $1 (drone repo GetByID). -/
def findDrone : List Drone → String → Option Drone
  | [], _ => none
  | d :: rest, i => if d.id = i then some d else findDrone rest i

/-- UPDATE orders SET ... WHERE id = :id (orderRepository.Update). -/
def updOrders : List Order → Order → List Order
  | [], _ => []
  | x :: rest, o => (if x.id = o.id then o else x) :: updOrders rest o

/-- UPDATE jobs SET ... WHERE id = :id (jobRepository.Update). -/
def updJobs : List Job → Job → List Job
  | [], _ => []
  | x :: rest, j => (if x.id = j.id then j else x) :: updJobs rest j

/-- UPDATE drones SET ... WHERE id = :id (drone repo Update). -/
def updDrones : List Drone → Drone → List Drone
  | [], _ => []
  | x :: rest, d => (if x.id = d.id then d else x) :: updDrones rest d

/-- SELECT ... FROM jobs WHERE order_id = $1 AND status != CANCELLED
ORDER BY created_at DESC LIMIT 1 (jobRepository.GetByOrderID): jobs are
appended in creation order, so the most recent match is the last one. -/
def findJobByOrderID (jobs : List Job) (orderID : Nat) : Option Job :=
  (jobs.filter (fun j => j.orderID == orderID && j.status != JobCancelled)).getLast?

/-- Row guard of orderRepository.Cancel: status NOT IN (COMPLETED,
CANCELLED).  Note these two literals are job statuses; no terminal order
status (DELIVERED, FAILED, WITHDRAWN) is excluded by this guard. -/
def orderCancelGuard (o : Order) : Bool :=
  !(o.status == "COMPLETED" || o.status == "CANCELLED")

/-- orderRepository.Cancel: conditional UPDATE setting status CANCELLED and
submitted_by to the requester on every row matching the guard; an error when
no row matched (RowsAffected == 0). -/
def ordersCancel (orders : List Order) (orderID : Nat) (submittedBy : String) :
    Except String (List Order) :=
  if (orders.filter (fun o => o.id == orderID && orderCancelGuard o)).length = 0 then
    .error "order not found or already completed/cancelled"
  else
    .ok (orders.map (fun o =>
      if o.id == orderID && orderCancelGuard o then
        { o with status := "CANCELLED", submittedBy := submittedBy }
      else o))

/-- Row guard of jobRepository.CancelByOrderID: status NOT IN (COMPLETED,
CANCELLED). -/
def jobCancelGuard (j : Job) : Bool :=
  !(j.status == JobCompleted || j.status == JobCancelled)

/-- jobRepository.CancelByOrderID: conditional UPDATE cancelling every
non-terminal job of the order and clearing its drone binding; an error when
no row matched. -/
def jobsCancelByOrderID (jobs : List Job) (orderID : Nat) : Except String (List Job) :=
  if (jobs.filter (fun j => j.orderID == orderID && jobCancelGuard j)).length = 0 then
    .error "job for order not found or already completed/cancelled"
  else
    .ok (jobs.map (fun j =>
      if j.orderID == orderID && jobCancelGuard j then
        { j with status := JobCancelled, reservedByDroneID := none }
      else j))

/-!
Delivery orchestrator.  Each operation is one database transaction: the
returned DB of an ok result is the committed state; an error result means
tx.Rollback ran and the persisted state is the caller's original DB.
-/

/-- repo.CreateOrderAndJob (delivery repository): insert the order in
PENDING and one OPEN job referencing it, in one transaction.  Fresh ids come
from the counter (uuid.New in Go). -/
def createOrderAndJob (db : DB) (submittedBy : String) (oLat oLng dLat dLng : Int) : DB :=
  let o := newOrder db.counter submittedBy oLat oLng dLat dLng
  let j := newJob (db.counter + 1) o.id
  { db with counter := db.counter + 2, orders := db.orders ++ [o], jobs := db.jobs ++ [j] }

/-- repo.CancelOrderAndJob (delivery repository, src/unnamed/part_004):
orderRepo.Cancel then jobRepo.CancelByOrderID inside one transaction, each
failure wrapped as an Internal error and rolling back the whole unit. -/
def cancelOrderAndJob (db : DB) (orderID : Nat) (submittedBy : String) :
    Except DomainError DB :=
  match ordersCancel db.orders orderID submittedBy with
  | .error _ => .error (.internalErr "failed to cancel order")
  | .ok orders1 =>
    match jobsCancelByOrderID db.jobs orderID with
    | .error _ => .error (.internalErr "failed to cancel job")
    | .ok jobs1 => .ok { db with orders := orders1, jobs := jobs1 }

/-- Committed state of CancelOrderAndJob: the new DB on commit, the original
DB after rollback. -/
def runCancelOrderAndJob (db : DB) (orderID : Nat) (submittedBy : String) : DB :=
  match cancelOrderAndJob db orderID submittedBy with
  | .ok db1 => db1
  | .error _ => db

/-- repo.ReserveJobAndAssign of the delivery repository
(src/unnamed/part_004, lines 78-129): reserve the job, assign the order the
job references, reserve the drone, in that order, inside one transaction;
returns the reserved job.  uuid.Parse of the stored order id cannot fail in
the model (ids are structured). -/
def deliveryReserveJobAndAssign (db : DB) (jobID : Nat) (droneID : String) :
    Except DomainError (DB × Job) :=
  match findJob db.jobs jobID with
  | none => .error (.notFound "job" (toString jobID))
  | some j =>
    match jobReserve j droneID with
    | .error e => .error e
    | .ok j1 =>
      let db1 := { db with jobs := updJobs db.jobs j1 }
      match findOrder db1.orders j1.orderID with
      | none => .error (.notFound "order" (toString j1.orderID))
      | some o =>
        match orderAssign o droneID with
        | .error e => .error e
        | .ok o1 =>
          let db2 := { db1 with orders := updOrders db1.orders o1 }
          match findDrone db2.drones droneID with
          | none => .error (.notFound "drone" droneID)
          | some d =>
            match droneReserve d j1.orderID with
            | .error e => .error e
            | .ok d1 => .ok ({ db2 with drones := updDrones db2.drones d1 }, j1)

/-- jobRepository.ReserveJobAndAssign of the job repository
(src/unnamed/part_005, lines 201-252): the duplicated implementation of the
same workflow, translated independently from its own source text. -/
def jobRepoReserveJobAndAssign (db : DB) (jobID : Nat) (droneID : String) :
    Except DomainError (DB × Job) :=
  match findJob db.jobs jobID with
  | none => .error (.notFound "job" (toString jobID))
  | some j =>
    match jobReserve j droneID with
    | .error e => .error e
    | .ok j1 =>
      let db1 := { db with jobs := updJobs db.jobs j1 }
      match findOrder db1.orders j1.orderID with
      | none => .error (.notFound "order" (toString j1.orderID))
      | some o =>
        match orderAssign o droneID with
        | .error e => .error e
        | .ok o1 =>
          let db2 := { db1 with orders := updOrders db1.orders o1 }
          match findDrone db2.drones droneID with
          | none => .error (.notFound "drone" droneID)
          | some d =>
            match droneReserve d j1.orderID with
            | .error e => .error e
            | .ok d1 => .ok ({ db2 with drones := updDrones db2.drones d1 }, j1)

/-- Committed state of ReserveJobAndAssign: commit on ok, rollback on
error. -/
def runReserveJobAndAssign (db : DB) (jobID : Nat) (droneID : String) : DB :=
  match deliveryReserveJobAndAssign db jobID droneID with
  | .ok (db1, _) => db1
  | .error _ => db

/-- repo.GrabOrder: verify the caller drone is the assigned drone, mark the
order picked up, start the drone's delivery, in one transaction. -/
def grabOrder (db : DB) (orderID : Nat) (droneID : String) : Except DomainError DB :=
  match findOrder db.orders orderID with
  | none => .error (.notFound "order" (toString orderID))
  | some o =>
    if o.assignedDroneID ≠ some droneID then
      .error (.forbidden "drone is not assigned to this order")
    else
      match orderMarkPickedUp o with
      | .error e => .error e
      | .ok o1 =>
        let db1 := { db with orders := updOrders db.orders o1 }
        match findDrone db1.drones droneID with
        | none => .error (.notFound "drone" droneID)
        | some d =>
          match droneStartDelivery d with
          | .error e => .error e
          | .ok d1 => .ok { db1 with drones := updDrones db1.drones d1 }

/-- repo.CompleteDelivery: verify the assigned drone, mark the order
delivered or failed, idle the drone, then best-effort complete the order's
most recent non-cancelled job (a failing Complete transition is ignored). -/
def completeDelivery (db : DB) (orderID : Nat) (droneID : String) (delivered : Bool) :
    Except DomainError DB :=
  match findOrder db.orders orderID with
  | none => .error (.notFound "order" (toString orderID))
  | some o =>
    if o.assignedDroneID ≠ some droneID then
      .error (.forbidden "drone is not assigned to this order")
    else
      match (if delivered then orderMarkDelivered o else orderMarkFailed o) with
      | .error e => .error e
      | .ok o1 =>
        let db1 := { db with orders := updOrders db.orders o1 }
        match findDrone db1.drones droneID with
        | none => .error (.notFound "drone" droneID)
        | some d =>
          let db2 := { db1 with drones := updDrones db1.drones (droneGoIdle d) }
          match findJobByOrderID db2.jobs orderID with
          | none => .ok db2
          | some j =>
            match jobComplete j with
            | .error _ => .ok db2
            | .ok j1 => .ok { db2 with jobs := updJobs db2.jobs j1 }

/-- service.HandleDroneBroken (admin service; same logic as the drone
handler's ReportBroken): mark the drone broken, and when it was carrying an
order, move that order to AWAITING_HANDOFF and create a fresh OPEN job for
it, all in one transaction.  The carried order's previous job is not
touched. -/
def handleDroneBroken (db : DB) (droneID : String) : Except DomainError DB :=
  match findDrone db.drones droneID with
  | none => .error (.notFound "drone" droneID)
  | some d =>
    match droneMarkBroken d with
    | .error e => .error e
    | .ok (event, d1) =>
      let db1 := { db with drones := updDrones db.drones d1 }
      match event.orderID with
      | none => .ok db1
      | some oid =>
        match findOrder db1.orders oid with
        | none => .error (.notFound "order" (toString oid))
        | some o =>
          match orderAwaitHandoff o with
          | .error e => .error e
          | .ok o1 =>
            let db2 := { db1 with orders := updOrders db1.orders o1 }
            .ok { db2 with counter := db2.counter + 1,
                           jobs := db2.jobs ++ [newJob db2.counter oid] }

/-- Committed state of HandleDroneBroken. -/
def runHandleDroneBroken (db : DB) (droneID : String) : DB :=
  match handleDroneBroken db droneID with
  | .ok db1 => db1
  | .error _ => db

/-- drone service Heartbeat: EnsureExists (create an IDLE drone on first
heartbeat) then UpdateLocation and persist.  Geofence validation is on
abstract coordinates and never fails in the model. -/
def heartbeat (db : DB) (droneID : String) (lat lng : Int) : DB :=
  match findDrone db.drones droneID with
  | some d => { db with drones := updDrones db.drones (droneUpdateLocation d lat lng) }
  | none =>
    let d := newDrone droneID
    let db1 := { db with drones := db.drones ++ [d] }
    { db1 with drones := updDrones db1.drones (droneUpdateLocation d lat lng) }

/-!
Circuit breaker (internal/middleware/circuit_breaker.go).  Time is an Int in
abstract units; time.Since(lastFailureTime) > cooldown becomes
now - lastFailureTime > cooldown.  The per-route keying and the mutex are
outside the sequential model; one breaker value is threaded explicitly.
-/

/-- circuitState: stateClosed, stateOpen, stateHalfOpen. -/
inductive CState where
  | closed
  | opened
  | halfOpen
  deriving Repr, DecidableEq

/-- circuitBreaker: consecutive-failure counter, trip threshold, cooldown,
and the time of the last recorded failure. -/
structure CircuitBreaker where
  state : CState
  failures : Nat
  threshold : Nat
  cooldown : Int
  lastFailureTime : Int
  deriving Repr, DecidableEq

/-- newCircuitBreaker: CLOSED with zero failures. -/
def newCircuitBreaker (threshold : Nat) (cooldown : Int) : CircuitBreaker :=
  { state := .closed, failures := 0, threshold := threshold,
    cooldown := cooldown, lastFailureTime := 0 }

/-- circuitBreaker.allow: pass in CLOSED; in OPEN admit (and move to
HALF_OPEN) only once the cooldown has elapsed; reject in HALF_OPEN (only one
probe at a time). -/
def cbAllow (cb : CircuitBreaker) (now : Int) : Bool × CircuitBreaker :=
  match cb.state with
  | .closed => (true, cb)
  | .opened =>
    if now - cb.lastFailureTime > cb.cooldown then
      (true, { cb with state := .halfOpen })
    else
      (false, cb)
  | .halfOpen => (false, cb)

/-- circuitBreaker.recordSuccess: reset the failure count and close. -/
def cbRecordSuccess (cb : CircuitBreaker) : CircuitBreaker :=
  { cb with failures := 0, state := .closed }

/-- circuitBreaker.recordFailure: bump the counter, stamp the failure time,
and open once the counter reaches the threshold. -/
def cbRecordFailure (cb : CircuitBreaker) (now : Int) : CircuitBreaker :=
  let cb1 := { cb with failures := cb.failures + 1, lastFailureTime := now }
  if cb1.failures ≥ cb1.threshold then { cb1 with state := .opened } else cb1

/-- Outcome of one request through the CircuitBreaker middleware: either the
fixed circuit-open rejection, or the downstream response status. -/
inductive CbOutcome where
  | rejected
  | served (status : Nat)
  deriving Repr, DecidableEq

/-- One request through the CircuitBreaker middleware: if allow fails, abort
with the fixed service-unavailable response and record nothing; otherwise
run the downstream handler (whose response status is the argument) and
record a failure for a 5xx status, a success otherwise. -/
def cbHandleRequest (cb : CircuitBreaker) (now : Int) (status : Nat) :
    CbOutcome × CircuitBreaker :=
  let (ok, cb1) := cbAllow cb now
  if ok then
    if status ≥ 500 then (.served status, cbRecordFailure cb1 now)
    else (.served status, cbRecordSuccess cb1)
  else
    (.rejected, cb1)

/-!
Idempotency middleware (internal/middleware/idempotency.go) over the Redis
store (internal/redis/idempotency.go).  The store is an association list
keyed by (caller identity, Idempotency-Key); expiry is abstracted as the
entry still being present.  The downstream handler is any function from an
abstract state to a new state, a status code and a response body.
-/

/-- The idempotency store: (userID, key) to cached response body. -/
abbrev IdemStore : Type := List ((String × String) × String)

/-- IdempotencyStore.Check: GET of the caller/key pair. -/
def idemCheck (store : IdemStore) (userID key : String) : Option String :=
  match store with
  | [] => none
  | (k, body) :: rest =>
    if k = (userID, key) then some body else idemCheck rest userID key

/-- IdempotencyStore.Set: SetNX, writing only when the key is absent. -/
def idemSet (store : IdemStore) (userID key body : String) : IdemStore :=
  match idemCheck store userID key with
  | some _ => store
  | none => ((userID, key), body) :: store

/-- Result of one request through the Idempotency middleware. -/
structure IdemResult (σ : Type) where
  store : IdemStore
  st : σ
  status : Nat
  body : String

/-- One request through the Idempotency middleware: a cache hit replays the
stored body with status 200 without running the handler; a miss runs the
handler, recording the body, and stores it only for a success-range (2xx)
status. -/
def idemRun {σ : Type} (store : IdemStore) (st : σ) (handler : σ → σ × Nat × String)
    (userID key : String) : IdemResult σ :=
  match idemCheck store userID key with
  | some cached => { store := store, st := st, status := 200, body := cached }
  | none =>
    let (st1, status, body) := handler st
    { store := if 200 ≤ status ∧ status < 300 then idemSet store userID key body else store,
      st := st1, status := status, body := body }

/-!
Sliding-window rate limiter (internal/redis/rate_limiter.go).  The per-IP
Redis sorted set is a list of millisecond timestamps (each member unique);
the pipeline is ZRemRangeByScore(0, windowStart), ZCard, ZAdd(now), Expire,
and the admission decision compares the post-removal pre-add cardinality
with the configured maximum.
-/

/-- ZRemRangeByScore over the timestamp list: drop scores in [lo, hi]. -/
def zremRangeByScore (entries : List Int) (lo hi : Int) : List Int :=
  entries.filter (fun t => !(lo ≤ t && t ≤ hi))

/-- RateLimiter.Allow, translated from the Redis pipeline: remove entries
with score up to now - window, count what remains, append the new
timestamp, and admit exactly when the count is strictly below the
maximum. -/
def rateLimiterAllow (entries : List Int) (nowMs : Int) (maxRequests windowSeconds : Nat) :
    Bool × List Int :=
  let windowStartMs := nowMs - (windowSeconds : Int) * 1000
  let remaining := zremRangeByScore entries 0 windowStartMs
  let count := remaining.length
  (count < maxRequests, remaining ++ [nowMs])

/-- The admission rule in the words of the specification: drop the
timestamps older than the window, count the remainder, admit exactly when
that count is strictly below the maximum, and record the new timestamp. -/
def rateLimiterAllowSpec (entries : List Int) (nowMs : Int) (maxRequests windowSeconds : Nat) :
    Bool × List Int :=
  let kept := entries.filter (fun t => nowMs - (windowSeconds : Int) * 1000 < t)
  (kept.length < maxRequests, kept ++ [nowMs])

/-!
Shared helper lemmas about the row-level store operations.
-/

/-- Decidable equality of Except values, used to evaluate operation results
on concrete inputs. -/
instance {ε α : Type} [DecidableEq ε] [DecidableEq α] : DecidableEq (Except ε α)
  | .error a, .error b =>
    if h : a = b then .isTrue (by rw [h])
    else .isFalse (fun hh => h (Except.error.inj hh))
  | .error _, .ok _ => .isFalse (fun hh => Except.noConfusion hh)
  | .ok _, .error _ => .isFalse (fun hh => Except.noConfusion hh)
  | .ok a, .ok b =>
    if h : a = b then .isTrue (by rw [h])
    else .isFalse (fun hh => h (Except.ok.inj hh))

theorem findOrder_mem {l : List Order} {i : Nat} {o : Order}
    (h : findOrder l i = some o) : o ∈ l ∧ o.id = i := by
  induction l with
  | nil => simp [findOrder] at h
  | cons x rest ih =>
    by_cases hx : x.id = i
    · simp [findOrder, hx] at h
      exact ⟨by simp [← h], by rw [← h]; exact hx⟩
    · simp [findOrder, hx] at h
      rcases ih h with ⟨hm, hid⟩
      exact ⟨List.mem_cons_of_mem _ hm, hid⟩

theorem findOrder_map {l : List Order} {i : Nat} {o : Order} (f : Order → Order)
    (hf : ∀ x, (f x).id = x.id) (h : findOrder l i = some o) :
    findOrder (l.map f) i = some (f o) := by
  induction l with
  | nil => simp [findOrder] at h
  | cons x rest ih =>
    by_cases hx : x.id = i
    · simp [findOrder, hx] at h
      simp [findOrder, hf, hx, ← h]
    · simp [findOrder, hx] at h
      simp [findOrder, hf, hx, ih h]

theorem findOrder_updOrders_self {l : List Order} {i : Nat} {o o1 : Order}
    (h : findOrder l i = some o) (hid : o1.id = o.id) :
    findOrder (updOrders l o1) i = some o1 := by
  have h1i : o1.id = i := hid.trans (findOrder_mem h).2
  induction l with
  | nil => simp [findOrder] at h
  | cons x rest ih =>
    rw [show updOrders (x :: rest) o1
          = (if x.id = o1.id then o1 else x) :: updOrders rest o1 from rfl]
    by_cases hx : x.id = i
    · have hxo : x.id = o1.id := by rw [hx, ← h1i]
      rw [if_pos hxo,
          show findOrder (o1 :: updOrders rest o1) i
            = if o1.id = i then some o1 else findOrder (updOrders rest o1) i from rfl,
          if_pos h1i]
    · have hxo : ¬ x.id = o1.id := by rw [h1i]; exact hx
      rw [if_neg hxo,
          show findOrder (x :: updOrders rest o1) i
            = if x.id = i then some x else findOrder (updOrders rest o1) i from rfl,
          if_neg hx]
      rw [show findOrder (x :: rest) i
            = if x.id = i then some x else findOrder rest i from rfl,
          if_neg hx] at h
      exact ih h

theorem findDrone_mem {l : List Drone} {i : String} {d : Drone}
    (h : findDrone l i = some d) : d ∈ l ∧ d.id = i := by
  induction l with
  | nil => simp [findDrone] at h
  | cons x rest ih =>
    by_cases hx : x.id = i
    · simp [findDrone, hx] at h
      exact ⟨by simp [← h], by rw [← h]; exact hx⟩
    · simp [findDrone, hx] at h
      rcases ih h with ⟨hm, hid⟩
      exact ⟨List.mem_cons_of_mem _ hm, hid⟩

theorem findDrone_updDrones_self {l : List Drone} {i : String} {d d1 : Drone}
    (h : findDrone l i = some d) (hid : d1.id = d.id) :
    findDrone (updDrones l d1) i = some d1 := by
  have h1i : d1.id = i := hid.trans (findDrone_mem h).2
  induction l with
  | nil => simp [findDrone] at h
  | cons x rest ih =>
    rw [show updDrones (x :: rest) d1
          = (if x.id = d1.id then d1 else x) :: updDrones rest d1 from rfl]
    by_cases hx : x.id = i
    · have hxd : x.id = d1.id := by rw [hx, ← h1i]
      rw [if_pos hxd,
          show findDrone (d1 :: updDrones rest d1) i
            = if d1.id = i then some d1 else findDrone (updDrones rest d1) i from rfl,
          if_pos h1i]
    · have hxd : ¬ x.id = d1.id := by rw [h1i]; exact hx
      rw [if_neg hxd,
          show findDrone (x :: updDrones rest d1) i
            = if x.id = i then some x else findDrone (updDrones rest d1) i from rfl,
          if_neg hx]
      rw [show findDrone (x :: rest) i
            = if x.id = i then some x else findDrone rest i from rfl,
          if_neg hx] at h
      exact ih h

theorem findJob_map {l : List Job} {i : Nat} {j : Job} (f : Job → Job)
    (hf : ∀ x, (f x).id = x.id) (h : findJob l i = some j) :
    findJob (l.map f) i = some (f j) := by
  induction l with
  | nil => simp [findJob] at h
  | cons x rest ih =>
    by_cases hx : x.id = i
    · simp [findJob, hx] at h
      simp [findJob, hf, hx, ← h]
    · simp [findJob, hx] at h
      simp [findJob, hf, hx, ih h]

/-!
C10 - the two duplicated reservation workflows are behaviourally equivalent.
-/

/-- Claim C10: the delivery repository's ReserveJobAndAssign and the job
repository's ReserveJobAndAssign are behaviourally equivalent: on every
starting database state and every job/drone id they produce the same final
aggregate states, the same returned job, and the same error outcome. -/
theorem reserveJobAndAssign_duplicates_equivalent :
    ∀ (db : DB) (jobID : Nat) (droneID : String),
      deliveryReserveJobAndAssign db jobID droneID =
        jobRepoReserveJobAndAssign db jobID droneID :=
  fun _ _ _ => rfl

/-!
C8 - the rate limiter's admission check.
-/

/-- Claim C8: on each request the rate limiter first drops the recorded
timestamps older than the configured window, then counts the remaining
timestamps, admits the request exactly when that count is strictly below
the configured maximum, and records the new request's timestamp in the
set.  Stated as equality with the specification-worded rule; the
hypothesis is that stored scores are nonnegative (Unix-epoch milliseconds),
matching the pipeline's removal range [0, windowStart]. -/
theorem rateLimiterAllow_correct (entries : List Int) (nowMs : Int)
    (maxRequests windowSeconds : Nat) (hpos : ∀ t ∈ entries, 0 ≤ t) :
    rateLimiterAllow entries nowMs maxRequests windowSeconds =
      rateLimiterAllowSpec entries nowMs maxRequests windowSeconds := by
  unfold rateLimiterAllow rateLimiterAllowSpec zremRangeByScore
  have hfilter : entries.filter (fun t => !(0 ≤ t && t ≤ nowMs - (windowSeconds : Int) * 1000)) =
      entries.filter (fun t => nowMs - (windowSeconds : Int) * 1000 < t) := by
    apply List.filter_congr
    intro t ht
    have h0 : (0 : Int) ≤ t := hpos t ht
    by_cases hlt : nowMs - (windowSeconds : Int) * 1000 < t
    · simp [h0, hlt, not_le_of_lt hlt]
    · simp [h0, hlt, le_of_not_lt hlt]
  simp only [hfilter]

/-- Witness for C8 at a concrete input: three stored timestamps, one of
which is stale, window 60 s, maximum 2; the request is rejected because two
fresh timestamps remain. -/
theorem rateLimiterAllow_correct_witness :
    (∀ t ∈ [(1000 : Int), 50000, 70000], 0 ≤ t) ∧
      rateLimiterAllow [(1000 : Int), 50000, 70000] 70000 2 60 =
        rateLimiterAllowSpec [(1000 : Int), 50000, 70000] 70000 2 60 :=
  ⟨by decide, rateLimiterAllow_correct [(1000 : Int), 50000, 70000] 70000 2 60 (by decide)⟩

/-!
C4 - the order state machine's edges.
-/

/-- The order state names of section 4.1. -/
def orderStateNames : List String :=
  [StatusPending, StatusAssigned, StatusPickedUp, StatusDelivered,
   StatusFailed, StatusWithdrawn, StatusAwaitingHandoff]

/-- A DELIVERED order used as a concrete input. -/
def deliveredOrder : Order :=
  { id := 7, submittedBy := "user-1", originLat := 1, originLng := 2,
    destLat := 3, destLng := 4, status := StatusDelivered, assignedDroneID := none }

/-- A fresh PENDING order used as a concrete input. -/
def pendingOrder : Order :=
  newOrder 3 "user-2" 10 11 12 13

/-- Claim C4 counterexample: UpdateOrigin on a DELIVERED order returns an
InvalidTransition error whose target field is the operation name
update_origin, which is not one of the order state names, so the error does
not carry a target state name as the claim states. -/
theorem updateOrigin_error_target_not_a_state_name :
    orderUpdateOrigin deliveredOrder 5 6 =
        .error (.invalidTransition "DELIVERED" "update_origin") ∧
      "update_origin" ∉ orderStateNames := by
  constructor
  · rfl
  · decide

/-- Claim C4 amended: every order transition operation succeeds exactly from the
section 4.1 source states, with the stated field updates, and from any other
source state returns an InvalidTransition error carrying the attempted
source state name together with the target (the target state name for the
six state transitions, the operation name for UpdateOrigin and
UpdateDestination); on error no order is produced, so the persisted order
is unchanged. -/
theorem order_transitions_follow_edges (o : Order) (droneID : String) (lat lng : Int) :
    (o.status = StatusPending →
      orderWithdraw o = .ok { o with status := StatusWithdrawn }) ∧
    (o.status ≠ StatusPending →
      orderWithdraw o = .error (.invalidTransition o.status StatusWithdrawn)) ∧
    (o.status = StatusPending ∨ o.status = StatusAwaitingHandoff →
      orderAssign o droneID =
        .ok { o with status := StatusAssigned, assignedDroneID := some droneID }) ∧
    (o.status ≠ StatusPending ∧ o.status ≠ StatusAwaitingHandoff →
      orderAssign o droneID = .error (.invalidTransition o.status StatusAssigned)) ∧
    (o.status = StatusAssigned →
      orderMarkPickedUp o = .ok { o with status := StatusPickedUp }) ∧
    (o.status ≠ StatusAssigned →
      orderMarkPickedUp o = .error (.invalidTransition o.status StatusPickedUp)) ∧
    (o.status = StatusPickedUp →
      orderMarkDelivered o = .ok { o with status := StatusDelivered, assignedDroneID := none }) ∧
    (o.status ≠ StatusPickedUp →
      orderMarkDelivered o = .error (.invalidTransition o.status StatusDelivered)) ∧
    (o.status = StatusPickedUp →
      orderMarkFailed o = .ok { o with status := StatusFailed, assignedDroneID := none }) ∧
    (o.status ≠ StatusPickedUp →
      orderMarkFailed o = .error (.invalidTransition o.status StatusFailed)) ∧
    (o.status = StatusAssigned ∨ o.status = StatusPickedUp →
      orderAwaitHandoff o =
        .ok { o with status := StatusAwaitingHandoff, assignedDroneID := none }) ∧
    (o.status ≠ StatusAssigned ∧ o.status ≠ StatusPickedUp →
      orderAwaitHandoff o = .error (.invalidTransition o.status StatusAwaitingHandoff)) ∧
    (orderIsTerminal o.status = false →
      orderUpdateOrigin o lat lng = .ok { o with originLat := lat, originLng := lng }) ∧
    (orderIsTerminal o.status = true →
      orderUpdateOrigin o lat lng = .error (.invalidTransition o.status "update_origin")) ∧
    (orderIsTerminal o.status = false →
      orderUpdateDestination o lat lng = .ok { o with destLat := lat, destLng := lng }) ∧
    (orderIsTerminal o.status = true →
      orderUpdateDestination o lat lng =
        .error (.invalidTransition o.status "update_destination")) := by
  refine ⟨?_, ?_, ?_, ?_, ?_, ?_, ?_, ?_, ?_, ?_, ?_, ?_, ?_, ?_, ?_, ?_⟩
  · intro h; simp [orderWithdraw, h]
  · intro h; simp [orderWithdraw, h]
  · intro h; rcases h with h | h <;> simp [orderAssign, h]
  · intro h; simp [orderAssign, h.1, h.2]
  · intro h; simp [orderMarkPickedUp, h]
  · intro h; simp [orderMarkPickedUp, h]
  · intro h; simp [orderMarkDelivered, h]
  · intro h; simp [orderMarkDelivered, h]
  · intro h; simp [orderMarkFailed, h]
  · intro h; simp [orderMarkFailed, h]
  · intro h; rcases h with h | h <;> simp [orderAwaitHandoff, h]
  · intro h; simp [orderAwaitHandoff, h.1, h.2]
  · intro h; simp [orderUpdateOrigin, h]
  · intro h; simp [orderUpdateOrigin, h]
  · intro h; simp [orderUpdateDestination, h]
  · intro h; simp [orderUpdateDestination, h]

/-- Witness for C4's amended theorem: the PENDING order discharges the
allowed-edge hypotheses, the DELIVERED order the rejected-edge ones. -/
theorem order_transitions_follow_edges_witness :
    (orderWithdraw pendingOrder = .ok { pendingOrder with status := StatusWithdrawn }) ∧
    (orderAssign pendingOrder "drone-1" =
      .ok { pendingOrder with status := StatusAssigned, assignedDroneID := some "drone-1" }) ∧
    (orderUpdateOrigin pendingOrder 20 21 =
      .ok { pendingOrder with originLat := 20, originLng := 21 }) ∧
    (orderWithdraw deliveredOrder =
      .error (.invalidTransition StatusDelivered StatusWithdrawn)) ∧
    (orderAssign deliveredOrder "drone-1" =
      .error (.invalidTransition StatusDelivered StatusAssigned)) ∧
    (orderMarkPickedUp deliveredOrder =
      .error (.invalidTransition StatusDelivered StatusPickedUp)) ∧
    (orderMarkDelivered deliveredOrder =
      .error (.invalidTransition StatusDelivered StatusDelivered)) ∧
    (orderUpdateDestination deliveredOrder 5 6 =
      .error (.invalidTransition StatusDelivered "update_destination")) := by
  have hp := order_transitions_follow_edges pendingOrder "drone-1" 20 21
  have hd := order_transitions_follow_edges deliveredOrder "drone-1" 5 6
  refine ⟨hp.1 (by decide), hp.2.2.1 (Or.inl (by decide)), ?_, ?_, ?_, ?_, ?_, ?_⟩
  · exact hp.2.2.2.2.2.2.2.2.2.2.2.2.1 (by decide)
  · exact hd.2.1 (by decide)
  · exact hd.2.2.2.1 (by decide)
  · exact hd.2.2.2.2.2.1 (by decide)
  · exact hd.2.2.2.2.2.2.2.1 (by decide)
  · exact hd.2.2.2.2.2.2.2.2.2.2.2.2.2.2.2 (by decide)

/-!
C3 and C9 - the cancellation path.
-/

theorem ordersCancel_updates_found {l : List Order} {orderID : Nat} {requester : String}
    {o : Order} {l1 : List Order}
    (ho : findOrder l orderID = some o) (hg : orderCancelGuard o = true)
    (hoc : ordersCancel l orderID requester = .ok l1) :
    findOrder l1 orderID = some { o with status := "CANCELLED", submittedBy := requester } := by
  unfold ordersCancel at hoc
  by_cases hlen : (l.filter (fun x => x.id == orderID && orderCancelGuard x)).length = 0
  · rw [if_pos hlen] at hoc
    exact absurd hoc (by simp)
  · rw [if_neg hlen] at hoc
    have hmap := Except.ok.inj hoc
    rw [← hmap]
    have hid : o.id = orderID := (findOrder_mem ho).2
    have hres := findOrder_map
      (fun x => if x.id == orderID && orderCancelGuard x then
        { x with status := "CANCELLED", submittedBy := requester } else x)
      (fun x => by by_cases hx : (x.id == orderID && orderCancelGuard x) = true <;> simp [hx])
      ho
    simpa [hid, hg] using hres

theorem ordersCancel_matches_delivered {l : List Order} {orderID : Nat} {o : Order}
    (ho : findOrder l orderID = some o) (hg : orderCancelGuard o = true) :
    ¬ (l.filter (fun x => x.id == orderID && orderCancelGuard x)).length = 0 := by
  have hmem : o ∈ l.filter (fun x => x.id == orderID && orderCancelGuard x) :=
    List.mem_filter.mpr ⟨(findOrder_mem ho).1, by simp [(findOrder_mem ho).2, hg]⟩
  have : l.filter (fun x => x.id == orderID && orderCancelGuard x) ≠ [] :=
    List.ne_nil_of_mem hmem
  simpa [List.length_eq_zero] using this

/-- Claim C9: a successful CancelOrderAndJob on any order matching the guard
overwrites the order's submitter field with the requester's identity; the
requester is universally quantified and never compared with the order's
original submitter, so no ownership check restricts the overwrite. -/
theorem cancelOrderAndJob_overwrites_submitter (db : DB) (orderID : Nat) (requester : String)
    (o : Order) (db1 : DB)
    (ho : findOrder db.orders orderID = some o)
    (hg : orderCancelGuard o = true)
    (hok : cancelOrderAndJob db orderID requester = .ok db1) :
    findOrder db1.orders orderID =
      some { o with status := "CANCELLED", submittedBy := requester } := by
  unfold cancelOrderAndJob at hok
  cases hoc : ordersCancel db.orders orderID requester with
  | error e =>
    rw [hoc] at hok
    exact absurd hok (by simp)
  | ok orders1 =>
    rw [hoc] at hok
    cases hjc : jobsCancelByOrderID db.jobs orderID with
    | error e =>
      rw [hjc] at hok
      exact absurd hok (by simp)
    | ok jobs1 =>
      rw [hjc] at hok
      have hdb := Except.ok.inj hok
      rw [← hdb]
      exact ordersCancel_updates_found ho hg hoc

/-- A database with one DELIVERED order whose only job is COMPLETED (the
normal end state of a finished delivery). -/
def dbDeliveredCompleted : DB :=
  { counter := 2,
    orders := [{ id := 0, submittedBy := "alice", originLat := 0, originLng := 0,
                 destLat := 1, destLng := 1, status := StatusDelivered,
                 assignedDroneID := none }],
    jobs := [{ id := 1, orderID := 0, status := JobCompleted, reservedByDroneID := none }],
    drones := [] }

/-- A database with one DELIVERED order whose job is still RESERVED (the
best-effort job completion in CompleteDelivery had been skipped). -/
def dbDeliveredReserved : DB :=
  { counter := 2,
    orders := [{ id := 0, submittedBy := "alice", originLat := 0, originLng := 0,
                 destLat := 1, destLng := 1, status := StatusDelivered,
                 assignedDroneID := none }],
    jobs := [{ id := 1, orderID := 0, status := JobReserved,
               reservedByDroneID := some "drone-1" }],
    drones := [] }

/-- Claim C3 counterexample: cancelling an order already DELIVERED is neither a
no-op nor a "nothing to cancel" outcome.  When the delivered order's job is
COMPLETED the operation returns an Internal error instead of a well-defined
nothing-to-cancel outcome; when the job is still RESERVED the operation
commits, mutating the DELIVERED order to status CANCELLED with its
submitter overwritten.  The SQL guard excludes only the strings COMPLETED
and CANCELLED, which no order status matches, so DELIVERED rows do match
the cancellation update. -/
theorem cancel_delivered_not_noop :
    cancelOrderAndJob dbDeliveredCompleted 0 "mallory" =
        .error (.internalErr "failed to cancel job") ∧
      runCancelOrderAndJob dbDeliveredReserved 0 "mallory" ≠ dbDeliveredReserved ∧
      findOrder (runCancelOrderAndJob dbDeliveredReserved 0 "mallory").orders 0 =
        some { id := 0, submittedBy := "mallory", originLat := 0, originLng := 0,
               destLat := 1, destLng := 1, status := "CANCELLED",
               assignedDroneID := none } := by
  refine ⟨by decide, by decide, by decide⟩

/-- Claim C3 amended: for an order already DELIVERED the cancellation guard
still matches (it excludes only COMPLETED/CANCELLED, which are job
statuses): when the order has no remaining cancellable job the operation
returns an Internal "failed to cancel job" error and the rollback leaves
every aggregate unchanged; when a cancellable job remains the operation
succeeds and the DELIVERED order itself is updated to CANCELLED. -/
theorem cancelOrderAndJob_on_delivered (db : DB) (orderID : Nat) (requester : String)
    (o : Order)
    (ho : findOrder db.orders orderID = some o)
    (hd : o.status = StatusDelivered) :
    ((db.jobs.filter (fun j => j.orderID == orderID && jobCancelGuard j)).length = 0 →
      cancelOrderAndJob db orderID requester = .error (.internalErr "failed to cancel job") ∧
        runCancelOrderAndJob db orderID requester = db) ∧
    ((db.jobs.filter (fun j => j.orderID == orderID && jobCancelGuard j)).length ≠ 0 →
      ∃ db1, cancelOrderAndJob db orderID requester = .ok db1 ∧
        findOrder db1.orders orderID =
          some { o with status := "CANCELLED", submittedBy := requester }) := by
  have hg : orderCancelGuard o = true := by
    simp [orderCancelGuard, hd, StatusDelivered]
  have hmatch := ordersCancel_matches_delivered ho hg
  constructor
  · intro hjlen
    have herr : cancelOrderAndJob db orderID requester =
        .error (.internalErr "failed to cancel job") := by
      unfold cancelOrderAndJob ordersCancel jobsCancelByOrderID
      rw [if_neg hmatch, if_pos hjlen]
    exact ⟨herr, by unfold runCancelOrderAndJob; rw [herr]⟩
  · intro hjlen
    refine ⟨{ db with
        orders := db.orders.map (fun x => if x.id == orderID && orderCancelGuard x then
          { x with status := "CANCELLED", submittedBy := requester } else x),
        jobs := db.jobs.map (fun j => if j.orderID == orderID && jobCancelGuard j then
          { j with status := JobCancelled, reservedByDroneID := none } else j) }, ?_, ?_⟩
    · unfold cancelOrderAndJob ordersCancel jobsCancelByOrderID
      rw [if_neg hmatch, if_neg hjlen]
    · have hoc : ordersCancel db.orders orderID requester =
          .ok (db.orders.map (fun x => if x.id == orderID && orderCancelGuard x then
            { x with status := "CANCELLED", submittedBy := requester } else x)) := by
        unfold ordersCancel
        rw [if_neg hmatch]
      exact ordersCancel_updates_found ho hg hoc

/-- Witness for C3's amended theorem at the two concrete databases: the
COMPLETED-job database exercises the error branch, the RESERVED-job
database the committing branch. -/
theorem cancelOrderAndJob_on_delivered_witness :
    (cancelOrderAndJob dbDeliveredCompleted 0 "mallory" =
        .error (.internalErr "failed to cancel job") ∧
      runCancelOrderAndJob dbDeliveredCompleted 0 "mallory" = dbDeliveredCompleted) ∧
    (∃ db1, cancelOrderAndJob dbDeliveredReserved 0 "mallory" = .ok db1 ∧
      findOrder db1.orders 0 =
        some { id := 0, submittedBy := "mallory", originLat := 0, originLng := 0,
               destLat := 1, destLng := 1, status := "CANCELLED",
               assignedDroneID := none }) := by
  constructor
  · exact (cancelOrderAndJob_on_delivered dbDeliveredCompleted 0 "mallory"
      { id := 0, submittedBy := "alice", originLat := 0, originLng := 0,
        destLat := 1, destLng := 1, status := StatusDelivered, assignedDroneID := none }
      (by decide) (by decide)).1 (by decide)
  · exact (cancelOrderAndJob_on_delivered dbDeliveredReserved 0 "mallory"
      { id := 0, submittedBy := "alice", originLat := 0, originLng := 0,
        destLat := 1, destLng := 1, status := StatusDelivered, assignedDroneID := none }
      (by decide) (by decide)).2 (by decide)

/-- Witness for C9: the requester mallory is not the original submitter
alice, yet the committed order's submitter field becomes mallory. -/
theorem cancelOrderAndJob_overwrites_submitter_witness :
    findOrder (runCancelOrderAndJob dbDeliveredReserved 0 "mallory").orders 0 =
      some { id := 0, submittedBy := "mallory", originLat := 0, originLng := 0,
             destLat := 1, destLng := 1, status := "CANCELLED",
             assignedDroneID := none } :=
  cancelOrderAndJob_overwrites_submitter dbDeliveredReserved 0 "mallory"
    { id := 0, submittedBy := "alice", originLat := 0, originLng := 0,
      destLat := 1, destLng := 1, status := StatusDelivered, assignedDroneID := none }
    (runCancelOrderAndJob dbDeliveredReserved 0 "mallory")
    (by decide) (by decide) (by decide)

/-!
C1 - atomicity and failure ordering of ReserveJobAndAssign.
-/

/-- The first failure of the reservation workflow in the fixed order
job, then order, then drone, each check taken from the aggregate state
machines against the caller's original database (no intermediate write
involved): missing job, job not OPEN, missing order, order not assignable,
missing drone, drone not idle. -/
def reserveFirstFailure (db : DB) (jobID : Nat) (droneID : String) : Option DomainError :=
  match findJob db.jobs jobID with
  | none => some (.notFound "job" (toString jobID))
  | some j =>
    match jobReserve j droneID with
    | .error e => some e
    | .ok j1 =>
      match findOrder db.orders j1.orderID with
      | none => some (.notFound "order" (toString j1.orderID))
      | some o =>
        match orderAssign o droneID with
        | .error e => some e
        | .ok _ =>
          match findDrone db.drones droneID with
          | none => some (.notFound "drone" droneID)
          | some d =>
            match droneReserve d j1.orderID with
            | .error e => some e
            | .ok _ => none

/-- Claim C1: ReserveJobAndAssign is atomic and ordered.  On any error the
committed database is the caller's original one, unchanged (the job still
OPEN, the order unassigned, the drone untouched), and the returned error is
the first failure in the order job, order, drone.  On success the workflow
applied Reserve to the job, Assign to the order the job references, and
Reserve to the drone, in that order, and committed exactly those three row
updates. -/
theorem reserveJobAndAssign_atomic (db : DB) (jobID : Nat) (droneID : String) :
    (∀ e, deliveryReserveJobAndAssign db jobID droneID = .error e →
      runReserveJobAndAssign db jobID droneID = db ∧
        reserveFirstFailure db jobID droneID = some e) ∧
    (∀ db1 j1, deliveryReserveJobAndAssign db jobID droneID = .ok (db1, j1) →
      reserveFirstFailure db jobID droneID = none ∧
      ∃ j o o1 d d1,
        findJob db.jobs jobID = some j ∧
        jobReserve j droneID = .ok j1 ∧
        findOrder db.orders j1.orderID = some o ∧
        orderAssign o droneID = .ok o1 ∧
        findDrone db.drones droneID = some d ∧
        droneReserve d j1.orderID = .ok d1 ∧
        db1 = { db with jobs := updJobs db.jobs j1,
                        orders := updOrders db.orders o1,
                        drones := updDrones db.drones d1 }) := by
  constructor
  · intro e he
    have hrun : runReserveJobAndAssign db jobID droneID = db := by
      unfold runReserveJobAndAssign
      rw [he]
    refine ⟨hrun, ?_⟩
    unfold deliveryReserveJobAndAssign at he
    unfold reserveFirstFailure
    cases hj : findJob db.jobs jobID with
    | none =>
      simp only [hj, Except.error.injEq] at he
      simp [hj, he]
    | some j =>
      simp only [hj] at he
      cases hr : jobReserve j droneID with
      | error e1 =>
        simp only [hr, Except.error.injEq] at he
        simp [hj, hr, he]
      | ok j1 =>
        simp only [hr] at he
        cases hfo : findOrder db.orders j1.orderID with
        | none =>
          simp only [hfo, Except.error.injEq] at he
          simp [hj, hr, hfo, he]
        | some o =>
          simp only [hfo] at he
          cases ha : orderAssign o droneID with
          | error e2 =>
            simp only [ha, Except.error.injEq] at he
            simp [hj, hr, hfo, ha, he]
          | ok o1 =>
            simp only [ha] at he
            cases hfd : findDrone db.drones droneID with
            | none =>
              simp only [hfd, Except.error.injEq] at he
              simp [hj, hr, hfo, ha, hfd, he]
            | some d =>
              simp only [hfd] at he
              cases hdr : droneReserve d j1.orderID with
              | error e3 =>
                simp only [hdr, Except.error.injEq] at he
                simp [hj, hr, hfo, ha, hfd, hdr, he]
              | ok d1 =>
                simp only [hdr] at he
                exact absurd he (by simp)
  · intro db1 j1 hok
    unfold deliveryReserveJobAndAssign at hok
    unfold reserveFirstFailure
    cases hj : findJob db.jobs jobID with
    | none =>
      simp only [hj] at hok
      exact absurd hok (by simp)
    | some j =>
      simp only [hj] at hok
      cases hr : jobReserve j droneID with
      | error e1 =>
        simp only [hr] at hok
        exact absurd hok (by simp)
      | ok jr =>
        simp only [hr] at hok
        cases hfo : findOrder db.orders jr.orderID with
        | none =>
          simp only [hfo] at hok
          exact absurd hok (by simp)
        | some o =>
          simp only [hfo] at hok
          cases ha : orderAssign o droneID with
          | error e2 =>
            simp only [ha] at hok
            exact absurd hok (by simp)
          | ok o1 =>
            simp only [ha] at hok
            cases hfd : findDrone db.drones droneID with
            | none =>
              simp only [hfd] at hok
              exact absurd hok (by simp)
            | some d =>
              simp only [hfd] at hok
              cases hdr : droneReserve d jr.orderID with
              | error e3 =>
                simp only [hdr] at hok
                exact absurd hok (by simp)
              | ok d1 =>
                simp only [hdr, Except.ok.injEq, Prod.mk.injEq] at hok
                obtain ⟨hdb, hjr⟩ := hok
                subst hjr
                constructor
                · simp [hj, hr, hfo, ha, hfd, hdr]
                · exact ⟨j, o, o1, d, d1, rfl, hr, hfo, ha, rfl, hdr, hdb.symm⟩

/-- A small database with an OPEN job, its PENDING order and an IDLE drone,
on which the reservation succeeds. -/
def dbReady : DB :=
  { counter := 2,
    orders := [newOrder 0 "alice" 0 0 1 1],
    jobs := [newJob 1 0],
    drones := [newDrone "drone-1"] }

/-- Witness for C1: on a database whose job is already RESERVED the
operation fails with the Conflict error as the first (job-step) failure and
commits nothing; the error branch of the theorem is applied at that
input. -/
theorem reserveJobAndAssign_atomic_witness :
    runReserveJobAndAssign dbDeliveredReserved 1 "drone-9" = dbDeliveredReserved ∧
      reserveFirstFailure dbDeliveredReserved 1 "drone-9" =
        some (.conflict "job is already reserved by another drone") :=
  (reserveJobAndAssign_atomic dbDeliveredReserved 1 "drone-9").1
    (.conflict "job is already reserved by another drone") (by decide)

/-!
C5 - HandleDroneBroken.
-/

/-- Claim C5: when HandleDroneBroken commits, the drone ends BROKEN with its
current order cleared; if it was carrying an order, exactly one new job is
appended, that job is OPEN and references the carried order, and the order
ends in AWAITING_HANDOFF with its assigned drone cleared; if it carried no
order, jobs and orders are untouched. -/
theorem handleDroneBroken_spec (db : DB) (droneID : String) (db1 : DB)
    (hok : handleDroneBroken db droneID = .ok db1) :
    ∃ d, findDrone db.drones droneID = some d ∧ d.status ≠ DroneBroken ∧
      findDrone db1.drones droneID =
        some { d with status := DroneBroken, currentOrderID := none } ∧
      (d.currentOrderID = none → db1.jobs = db.jobs ∧ db1.orders = db.orders) ∧
      (∀ oid, d.currentOrderID = some oid →
        db1.jobs = db.jobs ++ [newJob db.counter oid] ∧
        (newJob db.counter oid).status = JobOpen ∧
        (newJob db.counter oid).orderID = oid ∧
        ∃ o, findOrder db.orders oid = some o ∧
          findOrder db1.orders oid =
            some { o with status := StatusAwaitingHandoff, assignedDroneID := none }) := by
  unfold handleDroneBroken at hok
  cases hfd : findDrone db.drones droneID with
  | none =>
    simp only [hfd] at hok
    exact absurd hok (by simp)
  | some d =>
    simp only [hfd] at hok
    by_cases hb : d.status = DroneBroken
    · simp only [droneMarkBroken, if_pos hb] at hok
      exact absurd hok (by simp)
    · simp only [droneMarkBroken, if_neg hb] at hok
      cases hco : d.currentOrderID with
      | none =>
        simp only [hco] at hok
        have hdb := Except.ok.inj hok
        refine ⟨d, rfl, hb, ?_, ?_, ?_⟩
        · rw [← hdb]
          exact findDrone_updDrones_self hfd rfl
        · intro _
          rw [← hdb]
          exact ⟨rfl, rfl⟩
        · intro oid hoid
          rw [hco] at hoid
          exact absurd hoid (by simp)
      | some oid =>
        simp only [hco] at hok
        cases hfo : findOrder db.orders oid with
        | none =>
          simp only [hfo] at hok
          exact absurd hok (by simp)
        | some o =>
          simp only [hfo] at hok
          by_cases hao : o.status ≠ StatusAssigned ∧ o.status ≠ StatusPickedUp
          · simp only [orderAwaitHandoff, if_pos hao] at hok
            exact absurd hok (by simp)
          · simp only [orderAwaitHandoff, if_neg hao] at hok
            have hdb := Except.ok.inj hok
            refine ⟨d, rfl, hb, ?_, ?_, ?_⟩
            · rw [← hdb]
              exact findDrone_updDrones_self hfd rfl
            · intro hnone
              rw [hco] at hnone
              exact absurd hnone (by simp)
            · intro oid1 hoid1
              rw [hco] at hoid1
              have hoe : oid = oid1 := by injection hoid1
              subst hoe
              refine ⟨by rw [← hdb], rfl, rfl, o, hfo, ?_⟩
              rw [← hdb]
              exact findOrder_updOrders_self hfo rfl

/-- A database in which drone-1 is EN_ROUTE_PICKUP carrying order 0, whose
job 1 is RESERVED. -/
def dbCarrying : DB :=
  { counter := 2,
    orders := [{ id := 0, submittedBy := "alice", originLat := 0, originLng := 0,
                 destLat := 1, destLng := 1, status := StatusAssigned,
                 assignedDroneID := some "drone-1" }],
    jobs := [{ id := 1, orderID := 0, status := JobReserved,
               reservedByDroneID := some "drone-1" }],
    drones := [{ id := "drone-1", status := DroneEnRoutePickup, latitude := 5,
                 longitude := 5, currentOrderID := some 0 }] }

/-- Witness for C5: HandleDroneBroken on the carrying drone commits, and the
theorem applied to that commit yields the broken drone, the single new OPEN
job for order 0 and the order in AWAITING_HANDOFF. -/
theorem handleDroneBroken_spec_witness :
    ∃ d, findDrone dbCarrying.drones "drone-1" = some d ∧ d.status ≠ DroneBroken ∧
      findDrone (runHandleDroneBroken dbCarrying "drone-1").drones "drone-1" =
        some { d with status := DroneBroken, currentOrderID := none } ∧
      (d.currentOrderID = none →
        (runHandleDroneBroken dbCarrying "drone-1").jobs = dbCarrying.jobs ∧
          (runHandleDroneBroken dbCarrying "drone-1").orders = dbCarrying.orders) ∧
      (∀ oid, d.currentOrderID = some oid →
        (runHandleDroneBroken dbCarrying "drone-1").jobs =
            dbCarrying.jobs ++ [newJob dbCarrying.counter oid] ∧
          (newJob dbCarrying.counter oid).status = JobOpen ∧
          (newJob dbCarrying.counter oid).orderID = oid ∧
          ∃ o, findOrder dbCarrying.orders oid = some o ∧
            findOrder (runHandleDroneBroken dbCarrying "drone-1").orders oid =
              some { o with status := StatusAwaitingHandoff, assignedDroneID := none }) :=
  handleDroneBroken_spec dbCarrying "drone-1"
    (runHandleDroneBroken dbCarrying "drone-1") (by decide)

/-!
C2 - the at-most-one-active-job-per-order invariant.  The repository's own
README documents HandleDroneBroken as cancelling the old job before
creating the handoff job, but the code never cancels it; the trace below
evaluates the program's operations and reaches a state with two
non-cancelled jobs for one order.
-/

/-- The empty initial database. -/
def dbTrace0 : DB := { counter := 0, orders := [], jobs := [], drones := [] }

/-- After drone-1's first heartbeat (implicit creation, IDLE). -/
def dbTrace1 : DB := heartbeat dbTrace0 "drone-1" 5 5

/-- After alice places an order: order 0 PENDING, job 1 OPEN. -/
def dbTrace2 : DB := createOrderAndJob dbTrace1 "alice" 0 0 1 1

/-- After drone-1 reserves job 1: job 1 RESERVED, order 0 ASSIGNED. -/
def dbTrace3 : DB := runReserveJobAndAssign dbTrace2 1 "drone-1"

/-- After drone-1 reports broken: handoff creates job 2 OPEN for order 0. -/
def dbTrace4 : DB := runHandleDroneBroken dbTrace3 "drone-1"

/-- Claim C2 evidence at the failing input: the reservation and the broken report
both commit, and afterwards order 0 has two non-cancelled jobs: job 1 still
RESERVED by the broken drone (never cancelled by the handoff) and job 2
OPEN.  This contradicts the at-most-one-active-job invariant and the
README's description of HandleDroneBroken as cancelling the old job. -/
theorem drone_broken_leaves_two_active_jobs :
    deliveryReserveJobAndAssign dbTrace2 1 "drone-1" =
        .ok (dbTrace3, { id := 1, orderID := 0, status := JobReserved,
                         reservedByDroneID := some "drone-1" }) ∧
      handleDroneBroken dbTrace3 "drone-1" = .ok dbTrace4 ∧
      (dbTrace4.jobs.filter (fun j => j.orderID == 0 && j.status != JobCancelled)).length = 2 ∧
      findJob dbTrace4.jobs 1 =
        some { id := 1, orderID := 0, status := JobReserved,
               reservedByDroneID := some "drone-1" } ∧
      findJob dbTrace4.jobs 2 =
        some { id := 2, orderID := 0, status := JobOpen, reservedByDroneID := none } := by
  refine ⟨by decide, by decide, by decide, by decide, by decide⟩

/-!
C6 - the per-route circuit breaker at threshold 5.
-/

/-- Claim C6: with threshold 5, five consecutive responses with status 500 or
above trip the breaker to OPEN stamped with the last failure time; while
OPEN and within the cooldown every request is rejected with the fixed
circuit-open response and the breaker unchanged; once the cooldown has
elapsed the next request is admitted as the probe (the breaker moving to
HALF_OPEN, in which every other request is rejected unchanged, so exactly
one probe runs); a failing probe re-opens the breaker stamped with the
probe time, starting another cooldown; a succeeding probe returns the
breaker to CLOSED with the failure count reset. -/
theorem circuitBreaker_threshold_five :
    (∀ (cb : CircuitBreaker) (t1 t2 t3 t4 t5 : Int) (s1 s2 s3 s4 s5 : Nat),
      cb.state = .closed → cb.failures = 0 → cb.threshold = 5 →
      500 ≤ s1 → 500 ≤ s2 → 500 ≤ s3 → 500 ≤ s4 → 500 ≤ s5 →
      ((cbHandleRequest (cbHandleRequest (cbHandleRequest (cbHandleRequest
          (cbHandleRequest cb t1 s1).2 t2 s2).2 t3 s3).2 t4 s4).2 t5 s5).2.state = .opened ∧
        (cbHandleRequest (cbHandleRequest (cbHandleRequest (cbHandleRequest
          (cbHandleRequest cb t1 s1).2 t2 s2).2 t3 s3).2 t4 s4).2 t5 s5).2.lastFailureTime = t5)) ∧
    (∀ (cb : CircuitBreaker) (now : Int) (s : Nat),
      cb.state = .opened → now - cb.lastFailureTime ≤ cb.cooldown →
      cbHandleRequest cb now s = (.rejected, cb)) ∧
    (∀ (cb : CircuitBreaker) (now : Int) (s : Nat),
      cb.state = .opened → now - cb.lastFailureTime > cb.cooldown →
      (cbHandleRequest cb now s).1 = .served s) ∧
    (∀ (cb : CircuitBreaker) (now : Int) (s : Nat),
      cb.state = .halfOpen → cbHandleRequest cb now s = (.rejected, cb)) ∧
    (∀ (cb : CircuitBreaker) (now : Int) (s : Nat),
      cb.state = .opened → now - cb.lastFailureTime > cb.cooldown →
      500 ≤ s → cb.threshold = 5 → 5 ≤ cb.failures →
      (cbHandleRequest cb now s).2.state = .opened ∧
        (cbHandleRequest cb now s).2.lastFailureTime = now) ∧
    (∀ (cb : CircuitBreaker) (now : Int) (s : Nat),
      cb.state = .opened → now - cb.lastFailureTime > cb.cooldown →
      s < 500 →
      (cbHandleRequest cb now s).2.state = .closed ∧
        (cbHandleRequest cb now s).2.failures = 0) := by
  refine ⟨?_, ?_, ?_, ?_, ?_, ?_⟩
  · intro cb t1 t2 t3 t4 t5 s1 s2 s3 s4 s5 h0 hf hth hs1 hs2 hs3 hs4 hs5
    simp [cbHandleRequest, cbAllow, cbRecordFailure, cbRecordSuccess,
          h0, hf, hth, hs1, hs2, hs3, hs4, hs5]
  · intro cb now s hst hcd
    unfold cbHandleRequest cbAllow
    simp only [hst]
    rw [if_neg (not_lt.mpr hcd)]
    simp
  · intro cb now s hst hcd
    unfold cbHandleRequest cbAllow
    simp only [hst]
    rw [if_pos hcd]
    by_cases hs : s ≥ 500 <;> simp [hs]
  · intro cb now s hst
    unfold cbHandleRequest cbAllow
    simp only [hst]
    simp
  · intro cb now s hst hcd hs hth hf5
    unfold cbHandleRequest cbAllow
    simp only [hst]
    rw [if_pos hcd]
    have hge : cb.failures + 1 ≥ 5 := by omega
    simp [hs, cbRecordFailure, hth, hge]
  · intro cb now s hst hcd hs
    unfold cbHandleRequest cbAllow
    simp only [hst]
    rw [if_pos hcd]
    simp [Nat.not_le.mpr hs, cbRecordSuccess]

/-- An OPEN circuit breaker with threshold 5, cooldown 30 and last failure
at time 100, used as a concrete input. -/
def cbOpen : CircuitBreaker :=
  { state := .opened, failures := 5, threshold := 5, cooldown := 30, lastFailureTime := 100 }

/-- Witness for C6 at concrete inputs: a fresh breaker tripped by five
500-responses; rejection at time 120 (within cooldown); probe admission at
time 140; rejection in HALF_OPEN; re-opening after a failing probe; closing
after a succeeding probe. -/
theorem circuitBreaker_threshold_five_witness :
    ((cbHandleRequest (cbHandleRequest (cbHandleRequest (cbHandleRequest
        (cbHandleRequest (newCircuitBreaker 5 30) 1 500).2 2 502).2 3 503).2
          4 500).2 5 500).2.state = .opened ∧
      (cbHandleRequest (cbHandleRequest (cbHandleRequest (cbHandleRequest
        (cbHandleRequest (newCircuitBreaker 5 30) 1 500).2 2 502).2 3 503).2
          4 500).2 5 500).2.lastFailureTime = 5) ∧
    cbHandleRequest cbOpen 120 200 = (.rejected, cbOpen) ∧
    (cbHandleRequest cbOpen 140 200).1 = .served 200 ∧
    cbHandleRequest { cbOpen with state := .halfOpen } 141 200 =
      (.rejected, { cbOpen with state := .halfOpen }) ∧
    ((cbHandleRequest cbOpen 140 500).2.state = .opened ∧
      (cbHandleRequest cbOpen 140 500).2.lastFailureTime = 140) ∧
    ((cbHandleRequest cbOpen 140 200).2.state = .closed ∧
      (cbHandleRequest cbOpen 140 200).2.failures = 0) := by
  have h := circuitBreaker_threshold_five
  refine ⟨h.1 (newCircuitBreaker 5 30) 1 2 3 4 5 500 502 503 500 500
      rfl rfl rfl (by decide) (by decide) (by decide) (by decide) (by decide),
    h.2.1 cbOpen 120 200 rfl (by decide),
    h.2.2.1 cbOpen 140 200 rfl (by decide),
    h.2.2.2.1 { cbOpen with state := .halfOpen } 141 200 rfl,
    h.2.2.2.2.1 cbOpen 140 500 rfl (by decide) (by decide) rfl (by decide),
    h.2.2.2.2.2 cbOpen 140 200 rfl (by decide) (by decide)⟩

/-!
C7 - the idempotency cache.
-/

/-- Claim C7: for a (caller, key) pair not yet cached, the first request executes
normally; exactly when its status is in the success range the body is
stored for the pair, and a repeat within the retention window (the entry
still present) returns the byte-identical body with the handler not run, so
the underlying state does not change again; after a non-success response
nothing is stored and the pair is still absent, so a repeat re-executes
freshly. -/
theorem idempotency_replay {σ : Type} (store : IdemStore) (st : σ)
    (handler : σ → σ × Nat × String) (userID key : String)
    (hmiss : idemCheck store userID key = none) :
    (200 ≤ (idemRun store st handler userID key).status ∧
        (idemRun store st handler userID key).status < 300 →
      idemCheck (idemRun store st handler userID key).store userID key =
          some (idemRun store st handler userID key).body ∧
        idemRun (idemRun store st handler userID key).store
            (idemRun store st handler userID key).st handler userID key =
          { store := (idemRun store st handler userID key).store,
            st := (idemRun store st handler userID key).st,
            status := 200,
            body := (idemRun store st handler userID key).body }) ∧
    (¬(200 ≤ (idemRun store st handler userID key).status ∧
        (idemRun store st handler userID key).status < 300) →
      (idemRun store st handler userID key).store = store ∧
        idemCheck (idemRun store st handler userID key).store userID key = none) := by
  cases hh : handler st with
  | mk st1 p =>
    cases p with
    | mk status body =>
      have hr1 : idemRun store st handler userID key =
          { store := if 200 ≤ status ∧ status < 300 then
              idemSet store userID key body else store,
            st := st1, status := status, body := body } := by
        unfold idemRun
        rw [hmiss, hh]
      by_cases h2 : 200 ≤ status ∧ status < 300
      · constructor
        · intro _
          rw [hr1]
          dsimp only
          rw [if_pos h2]
          have hset : idemSet store userID key body = ((userID, key), body) :: store := by
            unfold idemSet
            rw [hmiss]
          rw [hset]
          have hchk : idemCheck (((userID, key), body) :: store) userID key = some body := by
            unfold idemCheck
            rw [if_pos rfl]
          refine ⟨hchk, ?_⟩
          unfold idemRun
          rw [hchk]
        · intro hn
          rw [hr1] at hn
          dsimp only at hn
          exact absurd h2 hn
      · constructor
        · intro h2'
          rw [hr1] at h2'
          dsimp only at h2'
          exact absurd h2' h2
        · intro _
          rw [hr1]
          dsimp only
          rw [if_neg h2]
          exact ⟨rfl, hmiss⟩

/-- A concrete downstream handler: bumps a counter state and answers 201
with a fixed body. -/
def demoHandler : Nat → Nat × Nat × String := fun n => (n + 1, 201, "created")

/-- Witness for C7: on an empty store, the 201 first response is cached and
the replay answers the identical body with the state not advanced again. -/
theorem idempotency_replay_witness :
    idemCheck (idemRun [] 0 demoHandler "alice" "k1").store "alice" "k1" =
        some (idemRun [] 0 demoHandler "alice" "k1").body ∧
      idemRun (idemRun [] 0 demoHandler "alice" "k1").store
          (idemRun [] 0 demoHandler "alice" "k1").st demoHandler "alice" "k1" =
        { store := (idemRun [] 0 demoHandler "alice" "k1").store,
          st := (idemRun [] 0 demoHandler "alice" "k1").st,
          status := 200,
          body := (idemRun [] 0 demoHandler "alice" "k1").body } :=
  (idempotency_replay [] 0 demoHandler "alice" "k1" rfl).1 (by decide)

end DroneDelivery
